import Mathlib

set_option allowUnsafeReducibility true
attribute [semireducible] Rat.add Rat.mul Rat.sub Rat.div Rat.inv Rat.ofScientific

/-!
Verification development for the dso_weather repository.

The classifier (src/Arkansas/dso-classifier.js, class DSOWeatherClassifier) is
embedded over exact rationals, with a `JSVal` type capturing the three states a
JavaScript field read can produce: a number, NaN, or undefined.  The factor
engine (class DSOWeatherEngine in the same file, and DSOFactorCalculator from
src/unnamed/part_001) is embedded over the reals, since it uses trigonometric
functions.  Presentational output (icons, colors, interpretation strings,
locale date strings, toFixed formatting) is omitted; all numeric and
control-flow behavior is kept.
-/

namespace DSOWeather

namespace Classifier

/-- A JavaScript numeric-or-missing value: a plain (finite) number, NaN, or
undefined.  Comparisons with NaN or undefined are false; arithmetic on NaN or
undefined yields NaN; both are falsy. -/
inductive JSVal where
  | undef : JSVal
  | nan : JSVal
  | num : ℚ → JSVal
deriving DecidableEq

namespace JSVal

def isNum : JSVal → Bool
  | num _ => true
  | _ => false

/-- JS comparison `v < q`: false when `v` is undefined or NaN. -/
def ltQ : JSVal → ℚ → Bool
  | num v, q => decide (v < q)
  | _, _ => false

/-- JS comparison `v > q`: false when `v` is undefined or NaN. -/
def gtQ : JSVal → ℚ → Bool
  | num v, q => decide (q < v)
  | _, _ => false

/-- JS truthiness of a numeric value: 0, NaN and undefined are falsy. -/
def truthy : JSVal → Bool
  | num v => decide (v ≠ 0)
  | _ => false

/-- JS addition: an undefined or NaN operand gives NaN. -/
def add : JSVal → JSVal → JSVal
  | num a, num b => num (a + b)
  | _, _ => nan

/-- JS multiplication: an undefined or NaN operand gives NaN. -/
def mul : JSVal → JSVal → JSVal
  | num a, num b => num (a * b)
  | _, _ => nan

/-- Math.min(1, v); Math.min with a NaN (or undefined, coerced to NaN)
argument returns NaN. -/
def min1 : JSVal → JSVal
  | num v => num (min 1 v)
  | _ => nan

/-- Division of an accumulated score by a (positive) criteria count. -/
def divNat : JSVal → ℕ → JSVal
  | num v, n => num (v / n)
  | _, _ => nan

end JSVal

/-- The factor snapshot handed to DSOWeatherClassifier.classify.  Every field
of the JS object may be absent, hence each is a `JSVal`. -/
structure FactorSet where
  catalyst : JSVal
  gradient : JSVal
  fuel : JSVal
  solarAngle : JSVal
  inversionRatio : JSVal
  danger : JSVal
deriving DecidableEq

/-- The factor names that occur as criterion keys in the thresholds table
(the `inversionMin` / `inversionMax` keys are separate pseudo-criteria). -/
inductive FactorName where
  | catalyst | gradient | fuel | solarAngle | danger
deriving DecidableEq

def FactorSet.get (f : FactorSet) : FactorName → JSVal
  | .catalyst => f.catalyst
  | .gradient => f.gradient
  | .fuel => f.fuel
  | .solarAngle => f.solarAngle
  | .danger => f.danger

/-- One `{min?, max?, typical?}` criterion object. -/
structure Limits where
  min : Option ℚ
  max : Option ℚ
  typical : Option ℚ
deriving DecidableEq

/-- One key/value entry of a threshold object, in JS insertion order:
either a named factor criterion or an inversion-ratio bound. -/
inductive Entry where
  | crit (name : FactorName) (limits : Limits)
  | invMin (q : ℚ)
  | invMax (q : ℚ)
deriving DecidableEq

abbrev Threshold := List Entry

/-- One loop iteration of meetsThreshold: an inversionMin/Max entry fails on
`inversionRatio < q` / `> q` (false when the ratio is undefined or NaN); a
factor criterion is skipped (`continue`) when the factor is undefined, and
otherwise fails when the value is below `min` or above `max` (comparisons with
NaN are false, so NaN never fails a range check). -/
def checkEntry (f : FactorSet) : Entry → Bool
  | .invMin q => !(f.inversionRatio.ltQ q)
  | .invMax q => !(f.inversionRatio.gtQ q)
  | .crit n l =>
    match f.get n with
    | .undef => true
    | v =>
      !(match l.min with | some m => v.ltQ m | none => false) &&
      !(match l.max with | some m => v.gtQ m | none => false)

def meetsThreshold (f : FactorSet) (t : Threshold) : Bool :=
  t.all (checkEntry f)

/-- Score contribution of one criterion whose factor value is present (not
undefined): `max(0, 1 - |v - typical|)` when a typical target exists, the
midpoint formula for a min/max pair, and the one-sided ramp formulas
otherwise.  Math.max(0, NaN) is NaN, so the first two shapes propagate NaN;
the one-sided shapes guard with a comparison, which is false for NaN, giving
0.  (The source divides by `max - min`, `1 - min`, `max`; no entry of the
thresholds table makes any of these zero.) -/
def scoreContrib (v : JSVal) (l : Limits) : JSVal :=
  match l.typical with
  | some t =>
    match v with
    | .num x => .num (max 0 (1 - |x - t|))
    | _ => .nan
  | none =>
    match l.min, l.max with
    | some m, some M =>
      match v with
      | .num x => .num (max 0 (1 - |x - (m + M) / 2| / (M - m)))
      | _ => .nan
    | some m, none =>
      match v with
      | .num x => if m ≤ x then .num ((x - m) / (1 - m)) else .num 0
      | _ => .num 0
    | none, some M =>
      match v with
      | .num x => if x ≤ M then .num ((M - x) / M) else .num 0
      | _ => .num 0
    | none, none => .num 0

/-- One loop iteration of calculateScore over `(score, checks)`: inversion
entries and undefined factors are skipped; otherwise the criterion counts and
contributes. -/
def scoreStep (f : FactorSet) (acc : JSVal × ℕ) (e : Entry) : JSVal × ℕ :=
  match e with
  | .invMin _ => acc
  | .invMax _ => acc
  | .crit n l =>
    match f.get n with
    | .undef => acc
    | v => (acc.1.add (scoreContrib v l), acc.2 + 1)

def calculateScore (f : FactorSet) (t : Threshold) : JSVal :=
  let r := t.foldl (scoreStep f) (JSVal.num 0, 0)
  if 0 < r.2 then r.1.divNat r.2 else .num 0

/-- classify first augments the factor object:
`danger: danger || (fuel * gradient * catalyst^2 * solarAngle^2)`.
A falsy danger (absent, 0 or NaN) is replaced by the product, which is NaN
whenever one of the four base factors is absent. -/
def augmentFactors (f : FactorSet) : FactorSet :=
  let product :=
    (((f.fuel.mul f.gradient).mul (f.catalyst.mul f.catalyst)).mul
      (f.solarAngle.mul f.solarAngle))
  { f with danger := if f.danger.truthy then f.danger else product }

inductive Regime where
  | COLD | COOL | MILD | WARM | HOT
deriving DecidableEq

/-- tempScore = solarAngle*0.6 + fuel*0.4, bucketed; a NaN tempScore fails
every `<` test and lands in HOT. -/
def getTemperatureRegime (solarAngle fuel : JSVal) : Regime :=
  let tempScore := (solarAngle.mul (.num 0.6)).add (fuel.mul (.num 0.4))
  if tempScore.ltQ 0.35 then .COLD
  else if tempScore.ltQ 0.50 then .COOL
  else if tempScore.ltQ 0.65 then .MILD
  else if tempScore.ltQ 0.80 then .WARM
  else .HOT

/-- The twenty weather types of the thresholds table. -/
inductive WType where
  | TORNADO | SUPERCELL | SEVERE_TSTORM | DERECHO | BOMB_CYCLONE | BLIZZARD
  | ICE_STORM | WINTER_STORM | HIGH_WIND | THUNDERSTORM | FREEZING_RAIN
  | SNOW | WINTER_MIX | SHOWERS | RAIN | DRIZZLE | FOG | CLOUDY
  | PARTLY_CLOUDY | FAIR
deriving DecidableEq

inductive Category where
  | severe | winter | wind | convective | rain | visibility | clouds | clear
deriving DecidableEq

/-- severity field of weatherMeta. -/
def severity : WType → ℕ
  | .TORNADO => 10
  | .SUPERCELL => 9
  | .SEVERE_TSTORM => 8
  | .DERECHO => 8
  | .BOMB_CYCLONE => 8
  | .BLIZZARD => 7
  | .ICE_STORM => 7
  | .WINTER_STORM => 6
  | .HIGH_WIND => 5
  | .THUNDERSTORM => 5
  | .FREEZING_RAIN => 5
  | .SNOW => 4
  | .WINTER_MIX => 4
  | .SHOWERS => 3
  | .RAIN => 3
  | .DRIZZLE => 2
  | .FOG => 2
  | .CLOUDY => 1
  | .PARTLY_CLOUDY => 1
  | .FAIR => 0

/-- category field of weatherMeta. -/
def category : WType → Category
  | .TORNADO => .severe
  | .SUPERCELL => .severe
  | .SEVERE_TSTORM => .severe
  | .DERECHO => .severe
  | .BOMB_CYCLONE => .winter
  | .BLIZZARD => .winter
  | .ICE_STORM => .winter
  | .WINTER_STORM => .winter
  | .HIGH_WIND => .wind
  | .THUNDERSTORM => .convective
  | .FREEZING_RAIN => .winter
  | .SNOW => .winter
  | .WINTER_MIX => .winter
  | .SHOWERS => .rain
  | .RAIN => .rain
  | .DRIZZLE => .rain
  | .FOG => .visibility
  | .CLOUDY => .clouds
  | .PARTLY_CLOUDY => .clouds
  | .FAIR => .clear

def TORNADO_thr : Threshold :=
  [.crit .catalyst ⟨some 0.50, none, some 0.80⟩,
   .crit .gradient ⟨some 0.45, none, some 0.72⟩,
   .crit .fuel ⟨some 0.40, none, some 0.49⟩,
   .crit .danger ⟨some 0.05, none, some 0.15⟩,
   .invMax 1.0]

def SUPERCELL_thr : Threshold :=
  [.crit .catalyst ⟨some 0.40, none, some 0.65⟩,
   .crit .gradient ⟨some 0.35, none, some 0.55⟩,
   .crit .fuel ⟨some 0.35, none, some 0.45⟩,
   .crit .danger ⟨some 0.03, none, some 0.08⟩]

def SEVERE_TSTORM_thr : Threshold :=
  [.crit .catalyst ⟨some 0.25, none, some 0.50⟩,
   .crit .gradient ⟨some 0.10, none, some 0.30⟩,
   .crit .fuel ⟨some 0.30, none, some 0.45⟩,
   .crit .danger ⟨some 0.005, none, some 0.03⟩]

def DERECHO_thr : Threshold :=
  [.crit .catalyst ⟨none, some 0.35, none⟩,
   .crit .fuel ⟨some 0.65, none, none⟩,
   .crit .gradient ⟨some 0.20, some 0.50, none⟩,
   .crit .solarAngle ⟨some 0.70, none, none⟩]

def THUNDERSTORM_thr : Threshold :=
  [.crit .fuel ⟨some 0.35, none, none⟩,
   .crit .solarAngle ⟨some 0.50, none, none⟩,
   .crit .catalyst ⟨some 0.15, none, none⟩]

def SHOWERS_thr : Threshold :=
  [.crit .fuel ⟨some 0.25, none, none⟩,
   .crit .solarAngle ⟨some 0.40, none, none⟩]

def RAIN_thr : Threshold :=
  [.crit .fuel ⟨some 0.20, none, none⟩,
   .crit .gradient ⟨some 0.05, none, none⟩]

def DRIZZLE_thr : Threshold :=
  [.crit .fuel ⟨some 0.15, some 0.35, none⟩,
   .crit .gradient ⟨none, some 0.15, none⟩]

def BLIZZARD_thr : Threshold :=
  [.crit .catalyst ⟨some 0.60, none, none⟩,
   .crit .fuel ⟨none, some 0.30, none⟩,
   .crit .solarAngle ⟨none, some 0.55, none⟩,
   .crit .gradient ⟨some 0.25, none, none⟩,
   .invMin 1.0]

def WINTER_STORM_thr : Threshold :=
  [.crit .catalyst ⟨some 0.40, none, none⟩,
   .crit .fuel ⟨none, some 0.40, none⟩,
   .crit .solarAngle ⟨none, some 0.60, none⟩,
   .crit .gradient ⟨some 0.10, none, none⟩]

def ICE_STORM_thr : Threshold :=
  [.crit .catalyst ⟨some 0.30, none, none⟩,
   .crit .fuel ⟨some 0.25, some 0.50, none⟩,
   .crit .solarAngle ⟨some 0.45, some 0.65, none⟩,
   .crit .gradient ⟨some 0.15, none, none⟩]

def FREEZING_RAIN_thr : Threshold :=
  [.crit .fuel ⟨some 0.20, some 0.45, none⟩,
   .crit .solarAngle ⟨some 0.40, some 0.60, none⟩]

def SNOW_thr : Threshold :=
  [.crit .fuel ⟨none, some 0.35, none⟩,
   .crit .solarAngle ⟨none, some 0.55, none⟩]

def WINTER_MIX_thr : Threshold :=
  [.crit .fuel ⟨some 0.20, some 0.45, none⟩,
   .crit .solarAngle ⟨some 0.45, some 0.65, none⟩]

def BOMB_CYCLONE_thr : Threshold :=
  [.crit .catalyst ⟨some 0.55, none, none⟩,
   .invMin 1.2,
   .crit .fuel ⟨some 0.40, none, none⟩]

def HIGH_WIND_thr : Threshold :=
  [.crit .catalyst ⟨some 0.35, none, none⟩,
   .crit .gradient ⟨some 0.20, none, none⟩]

def FOG_thr : Threshold :=
  [.crit .catalyst ⟨none, some 0.25, none⟩,
   .crit .gradient ⟨none, some 0.10, none⟩,
   .crit .fuel ⟨some 0.20, some 0.50, none⟩]

def CLOUDY_thr : Threshold :=
  [.crit .fuel ⟨some 0.15, none, none⟩,
   .crit .gradient ⟨none, some 0.20, none⟩]

def PARTLY_CLOUDY_thr : Threshold :=
  [.crit .fuel ⟨some 0.10, some 0.40, none⟩]

def FAIR_thr : Threshold :=
  [.crit .fuel ⟨none, some 0.25, none⟩,
   .crit .gradient ⟨none, some 0.15, none⟩,
   .crit .catalyst ⟨none, some 0.30, none⟩]

/-- The thresholds object, in JS insertion order. -/
def thresholdTable : List (WType × Threshold) :=
  [(.TORNADO, TORNADO_thr), (.SUPERCELL, SUPERCELL_thr),
   (.SEVERE_TSTORM, SEVERE_TSTORM_thr), (.DERECHO, DERECHO_thr),
   (.THUNDERSTORM, THUNDERSTORM_thr), (.SHOWERS, SHOWERS_thr),
   (.RAIN, RAIN_thr), (.DRIZZLE, DRIZZLE_thr), (.BLIZZARD, BLIZZARD_thr),
   (.WINTER_STORM, WINTER_STORM_thr), (.ICE_STORM, ICE_STORM_thr),
   (.FREEZING_RAIN, FREEZING_RAIN_thr), (.SNOW, SNOW_thr),
   (.WINTER_MIX, WINTER_MIX_thr), (.BOMB_CYCLONE, BOMB_CYCLONE_thr),
   (.HIGH_WIND, HIGH_WIND_thr), (.FOG, FOG_thr), (.CLOUDY, CLOUDY_thr),
   (.PARTLY_CLOUDY, PARTLY_CLOUDY_thr), (.FAIR, FAIR_thr)]

/-- A scored candidate.  (The source also stores the threshold object on the
candidate; it is never read afterwards.) -/
structure Cand where
  type : WType
  score : JSVal
deriving DecidableEq

/-- Precedence of the JS stable sort under the comparator
`(a, b) => sevB - sevA !== 0 ? sevB - sevA : b.score - a.score`:
`a` may stay before `b` when the comparator is ≤ 0; a NaN comparator value is
treated as 0 by Array.prototype.sort. -/
def candLE (a b : Cand) : Bool :=
  if severity a.type = severity b.type then
    match b.score, a.score with
    | .num x, .num y => decide (x ≤ y)
    | _, _ => true
  else decide (severity b.type < severity a.type)

/-- Stable insertion, modelling the unique stable order produced by
Array.prototype.sort with a consistent comparator. -/
def insertCand (a : Cand) : List Cand → List Cand
  | [] => [a]
  | b :: l => if candLE a b then a :: b :: l else b :: insertCand a l

def sortCands : List Cand → List Cand
  | [] => []
  | a :: l => insertCand a (sortCands l)

/-- The candidates loop of classify: every table entry whose threshold is met
is pushed with its score, in table order. -/
def passingCandidates (f : FactorSet) : List Cand :=
  thresholdTable.filterMap fun p =>
    if meetsThreshold f p.2 then some ⟨p.1, calculateScore f p.2⟩ else none

def sortedCandidates (factors : FactorSet) : List Cand :=
  sortCands (passingCandidates (augmentFactors factors))

/-- The classify return value (icon and color are presentational and
omitted; allCandidates keeps the exact scores that toFixed would format). -/
structure ClassificationResult where
  primary : WType
  secondary : Option WType
  confidence : JSVal
  severity : ℕ
  category : Category
  tempRegime : Regime
  allCandidates : List Cand
deriving DecidableEq

/-- DSOWeatherClassifier.classify. -/
def classify (factors : FactorSet) : ClassificationResult :=
  let tempRegime := getTemperatureRegime factors.solarAngle factors.fuel
  let candidates := sortedCandidates factors
  let basePrimary := ((candidates.head?).map Cand.type).getD .FAIR
  let baseConfidence : JSVal :=
    match candidates.head? with
    | some c => if c.score.truthy then c.score else .num 0.5
    | none => .num 0.5
  let primary :=
    if tempRegime = .COLD ∨ tempRegime = .COOL then
      match candidates.find? (fun c => decide (category c.type = .winter)) with
      | some w => if w.score.gtQ 0.3 then w.type else basePrimary
      | none => basePrimary
    else basePrimary
  { primary := primary
    secondary := (candidates.get? 1).map Cand.type
    confidence := baseConfidence.min1
    severity := severity primary
    category := category primary
    tempRegime := tempRegime
    allCandidates := candidates.take 5 }

/-- Deleting every criterion for a given factor name from a threshold;
used to express that a criterion is "skipped". -/
def removeCrit (n : FactorName) (t : Threshold) : Threshold :=
  t.filter fun e => match e with
    | .crit m _ => !(m == n)
    | _ => true

lemma removeCrit_cons_crit_eq (n : FactorName) (l : Limits) (t : Threshold) :
    removeCrit n (.crit n l :: t) = removeCrit n t := by
  simp [removeCrit]

lemma removeCrit_cons_crit_ne {m n : FactorName} (hm : m ≠ n) (l : Limits)
    (t : Threshold) :
    removeCrit n (.crit m l :: t) = .crit m l :: removeCrit n t := by
  simp [removeCrit, hm]

lemma removeCrit_cons_invMin (n : FactorName) (q : ℚ) (t : Threshold) :
    removeCrit n (.invMin q :: t) = .invMin q :: removeCrit n t := by
  simp [removeCrit]

lemma removeCrit_cons_invMax (n : FactorName) (q : ℚ) (t : Threshold) :
    removeCrit n (.invMax q :: t) = .invMax q :: removeCrit n t := by
  simp [removeCrit]

lemma checkEntry_undef (f : FactorSet) (n : FactorName) (l : Limits)
    (h : f.get n = .undef) : checkEntry f (.crit n l) = true := by
  simp [checkEntry, h]

lemma meetsThreshold_cons (f : FactorSet) (e : Entry) (t : Threshold) :
    meetsThreshold f (e :: t) = (checkEntry f e && meetsThreshold f t) := by
  simp [meetsThreshold]

lemma meetsThreshold_removeCrit (f : FactorSet) (n : FactorName)
    (h : f.get n = .undef) (t : Threshold) :
    meetsThreshold f t = meetsThreshold f (removeCrit n t) := by
  induction t with
  | nil => rfl
  | cons e t ih =>
    cases e with
    | crit m l =>
      by_cases hm : m = n
      · subst hm
        rw [removeCrit_cons_crit_eq, meetsThreshold_cons,
          checkEntry_undef f m l h, Bool.true_and, ih]
      · rw [removeCrit_cons_crit_ne hm, meetsThreshold_cons,
          meetsThreshold_cons, ih]
    | invMin q =>
      rw [removeCrit_cons_invMin, meetsThreshold_cons, meetsThreshold_cons, ih]
    | invMax q =>
      rw [removeCrit_cons_invMax, meetsThreshold_cons, meetsThreshold_cons, ih]

lemma scoreStep_undef (f : FactorSet) (n : FactorName) (l : Limits)
    (h : f.get n = .undef) (acc : JSVal × ℕ) :
    scoreStep f acc (.crit n l) = acc := by
  simp [scoreStep, h]

lemma scoreFold_removeCrit (f : FactorSet) (n : FactorName)
    (h : f.get n = .undef) (t : Threshold) :
    ∀ acc : JSVal × ℕ,
      t.foldl (scoreStep f) acc = (removeCrit n t).foldl (scoreStep f) acc := by
  induction t with
  | nil => intro acc; rfl
  | cons e t ih =>
    intro acc
    cases e with
    | crit m l =>
      by_cases hm : m = n
      · subst hm
        rw [removeCrit_cons_crit_eq, List.foldl_cons, scoreStep_undef f m l h]
        exact ih acc
      · rw [removeCrit_cons_crit_ne hm, List.foldl_cons, List.foldl_cons]
        exact ih _
    | invMin q =>
      rw [removeCrit_cons_invMin, List.foldl_cons, List.foldl_cons]
      exact ih _
    | invMax q =>
      rw [removeCrit_cons_invMax, List.foldl_cons, List.foldl_cons]
      exact ih _

lemma calculateScore_removeCrit (f : FactorSet) (n : FactorName)
    (h : f.get n = .undef) (t : Threshold) :
    calculateScore f t = calculateScore f (removeCrit n t) := by
  simp only [calculateScore]
  rw [scoreFold_removeCrit f n h t]

/-- Deleting the inversionMin/inversionMax entries from a threshold; used to
express that the inversion checks pass vacuously. -/
def removeInv (t : Threshold) : Threshold :=
  t.filter fun e => match e with
    | .crit _ _ => true
    | _ => false

lemma removeInv_cons_crit (m : FactorName) (l : Limits) (t : Threshold) :
    removeInv (.crit m l :: t) = .crit m l :: removeInv t := by
  simp [removeInv]

lemma removeInv_cons_invMin (q : ℚ) (t : Threshold) :
    removeInv (.invMin q :: t) = removeInv t := by
  simp [removeInv]

lemma removeInv_cons_invMax (q : ℚ) (t : Threshold) :
    removeInv (.invMax q :: t) = removeInv t := by
  simp [removeInv]

lemma meetsThreshold_removeInv (f : FactorSet)
    (h : f.inversionRatio = .undef) (t : Threshold) :
    meetsThreshold f t = meetsThreshold f (removeInv t) := by
  induction t with
  | nil => rfl
  | cons e t ih =>
    cases e with
    | crit m l =>
      rw [removeInv_cons_crit, meetsThreshold_cons, meetsThreshold_cons, ih]
    | invMin q =>
      have hch : checkEntry f (.invMin q) = true := by
        simp [checkEntry, h, JSVal.ltQ]
      rw [removeInv_cons_invMin, meetsThreshold_cons, hch, Bool.true_and, ih]
    | invMax q =>
      have hch : checkEntry f (.invMax q) = true := by
        simp [checkEntry, h, JSVal.gtQ]
      rw [removeInv_cons_invMax, meetsThreshold_cons, hch, Bool.true_and, ih]

lemma JSVal.isNum_iff {v : JSVal} : v.isNum = true ↔ ∃ q, v = .num q := by
  cases v <;> simp [JSVal.isNum]

lemma JSVal.truthy_isNum {v : JSVal} (h : v.truthy = true) : v.isNum = true := by
  cases v <;> simp_all [JSVal.truthy, JSVal.isNum]

/-- Every factor of the factor set is a plain number, except that danger may
also be absent (classify then recomputes it from the plain-number base
factors). -/
def CompleteNum (f : FactorSet) : Prop :=
  f.catalyst.isNum = true ∧ f.gradient.isNum = true ∧ f.fuel.isNum = true ∧
  f.solarAngle.isNum = true ∧ (f.danger = .undef ∨ f.danger.isNum = true)

instance : DecidablePred CompleteNum := fun f => by
  unfold CompleteNum
  infer_instance

lemma augment_get_isNum (f : FactorSet) (h : CompleteNum f) (n : FactorName) :
    ((augmentFactors f).get n).isNum = true := by
  obtain ⟨hc, hg, hf, hs, _⟩ := h
  obtain ⟨c, hcv⟩ := JSVal.isNum_iff.1 hc
  obtain ⟨g, hgv⟩ := JSVal.isNum_iff.1 hg
  obtain ⟨u, huv⟩ := JSVal.isNum_iff.1 hf
  obtain ⟨s, hsv⟩ := JSVal.isNum_iff.1 hs
  cases n with
  | catalyst => exact hc
  | gradient => exact hg
  | fuel => exact hf
  | solarAngle => exact hs
  | danger =>
    show (if f.danger.truthy = true then f.danger else _).isNum = true
    by_cases ht : f.danger.truthy = true
    · rw [if_pos ht]
      exact JSVal.truthy_isNum ht
    · rw [if_neg ht, hcv, hgv, huv, hsv]
      rfl

lemma scoreContrib_num_isNum (x : ℚ) (l : Limits) :
    (scoreContrib (.num x) l).isNum = true := by
  rcases ht : l.typical with _ | t <;>
    rcases hm : l.min with _ | m <;>
    rcases hM : l.max with _ | M <;>
    simp only [scoreContrib, ht, hm, hM] <;>
    first
    | rfl
    | (split <;> rfl)

lemma scoreFold_isNum (f : FactorSet)
    (hf : ∀ n, (f.get n).isNum = true) (t : Threshold) :
    ∀ acc : JSVal × ℕ, acc.1.isNum = true →
      ((t.foldl (scoreStep f) acc).1).isNum = true := by
  induction t with
  | nil => intro acc h; exact h
  | cons e t ih =>
    intro acc hacc
    cases e with
    | crit m l =>
      obtain ⟨q, hq⟩ := JSVal.isNum_iff.1 (hf m)
      obtain ⟨a, ha⟩ := JSVal.isNum_iff.1 hacc
      rw [List.foldl_cons]
      apply ih
      simp only [scoreStep, hq]
      obtain ⟨cq, hcq⟩ := JSVal.isNum_iff.1 (scoreContrib_num_isNum q l)
      rw [ha, hcq]
      rfl
    | invMin q =>
      rw [List.foldl_cons]
      exact ih acc hacc
    | invMax q =>
      rw [List.foldl_cons]
      exact ih acc hacc

lemma calculateScore_isNum (f : FactorSet)
    (hf : ∀ n, (f.get n).isNum = true) (t : Threshold) :
    (calculateScore f t).isNum = true := by
  have h := scoreFold_isNum f hf t (JSVal.num 0, 0) rfl
  obtain ⟨q, hq⟩ := JSVal.isNum_iff.1 h
  simp only [calculateScore]
  split
  · rw [hq]
    rfl
  · rfl

lemma mem_passingCandidates {f : FactorSet} {c : Cand} :
    c ∈ passingCandidates f ↔
      ∃ p ∈ thresholdTable, meetsThreshold f p.2 = true ∧
        c = ⟨p.1, calculateScore f p.2⟩ := by
  unfold passingCandidates
  rw [List.mem_filterMap]
  constructor
  · rintro ⟨p, hp, hsome⟩
    by_cases hm : meetsThreshold f p.2 = true
    · rw [if_pos hm] at hsome
      exact ⟨p, hp, hm, (Option.some.injEq _ _ ▸ hsome).symm⟩
    · rw [if_neg hm] at hsome
      exact absurd hsome (by simp)
  · rintro ⟨p, hp, hm, rfl⟩
    exact ⟨p, hp, by rw [if_pos hm]⟩

lemma mem_insertCand {x a : Cand} {l : List Cand} :
    x ∈ insertCand a l ↔ x = a ∨ x ∈ l := by
  induction l with
  | nil => simp [insertCand]
  | cons b l ih =>
    by_cases h : candLE a b = true
    · simp [insertCand, h]
    · simp only [insertCand, h, Bool.false_eq_true, if_false, List.mem_cons, ih]
      tauto

lemma mem_sortCands {x : Cand} {l : List Cand} : x ∈ sortCands l ↔ x ∈ l := by
  induction l with
  | nil => simp [sortCands]
  | cons a l ih => simp [sortCands, mem_insertCand, ih]

lemma candLE_total (a b : Cand) : candLE a b = true ∨ candLE b a = true := by
  unfold candLE
  by_cases h : severity a.type = severity b.type
  · rw [if_pos h, if_pos h.symm]
    cases a.score <;> cases b.score <;> simp
    exact le_total _ _
  · rw [if_neg h, if_neg (Ne.symm h)]
    simp only [decide_eq_true_eq]
    omega

lemma candLE_trans {a b c : Cand}
    (ha : a.score.isNum = true) (hb : b.score.isNum = true)
    (hc : c.score.isNum = true)
    (hab : candLE a b = true) (hbc : candLE b c = true) :
    candLE a c = true := by
  obtain ⟨x, hx⟩ := JSVal.isNum_iff.1 ha
  obtain ⟨y, hy⟩ := JSVal.isNum_iff.1 hb
  obtain ⟨z, hz⟩ := JSVal.isNum_iff.1 hc
  unfold candLE at hab hbc ⊢
  rw [hx, hy] at hab
  rw [hy, hz] at hbc
  rw [hx, hz]
  by_cases h1 : severity a.type = severity b.type
  · by_cases h2 : severity b.type = severity c.type
    · rw [if_pos h1] at hab
      rw [if_pos h2] at hbc
      rw [if_pos (h1.trans h2)]
      simp only [decide_eq_true_eq] at hab hbc ⊢
      exact le_trans hbc hab
    · rw [if_pos h1] at hab
      rw [if_neg h2] at hbc
      have hne : severity a.type ≠ severity c.type := fun hh =>
        h2 (h1.symm.trans hh)
      rw [if_neg hne]
      simp only [decide_eq_true_eq] at hbc ⊢
      omega
  · rw [if_neg h1] at hab
    simp only [decide_eq_true_eq] at hab
    by_cases h2 : severity b.type = severity c.type
    · have hne : severity a.type ≠ severity c.type := fun hh =>
        h1 (hh.trans h2.symm)
      rw [if_neg hne]
      simp only [decide_eq_true_eq]
      omega
    · rw [if_neg h2] at hbc
      simp only [decide_eq_true_eq] at hbc
      by_cases h3 : severity a.type = severity c.type
      · rw [if_pos h3]
        exfalso
        omega
      · rw [if_neg h3]
        simp only [decide_eq_true_eq]
        omega

/-- The sorted-before relation as a Prop. -/
def CandR (a b : Cand) : Prop := candLE a b = true

lemma pairwise_insertCand :
    ∀ (l : List Cand) (a : Cand),
      (∀ x ∈ a :: l, x.score.isNum = true) → l.Pairwise CandR →
      (insertCand a l).Pairwise CandR := by
  intro l
  induction l with
  | nil =>
    intro a _ _
    simp [insertCand]
  | cons b l ih =>
    intro a hnum hl
    obtain ⟨hb, hl2⟩ := List.pairwise_cons.1 hl
    by_cases h : candLE a b = true
    · rw [insertCand, if_pos h]
      refine List.pairwise_cons.2 ⟨?_, hl⟩
      intro x hx
      rcases List.mem_cons.1 hx with rfl | hx
      · exact h
      · exact candLE_trans (hnum a (by simp)) (hnum b (by simp))
          (hnum x (by simp [hx])) h (hb x hx)
    · rw [insertCand, if_neg h]
      refine List.pairwise_cons.2 ⟨?_, ?_⟩
      · intro x hx
        rcases mem_insertCand.1 hx with hxa | hx
        · rw [hxa]
          rcases candLE_total a b with h1 | h1
          · exact absurd h1 h
          · exact h1
        · exact hb x hx
      · refine ih a ?_ hl2
        intro x hx
        rcases List.mem_cons.1 hx with rfl | hx
        · exact hnum x (by simp)
        · exact hnum x (by simp [hx])

lemma pairwise_sortCands {l : List Cand}
    (hnum : ∀ x ∈ l, x.score.isNum = true) : (sortCands l).Pairwise CandR := by
  induction l with
  | nil => simp [sortCands]
  | cons a l ih =>
    rw [sortCands]
    refine pairwise_insertCand (sortCands l) a ?_
      (ih (fun x hx => hnum x (by simp [hx])))
    intro x hx
    rcases List.mem_cons.1 hx with rfl | hx
    · exact hnum x (by simp)
    · exact hnum x (by simp [mem_sortCands.1 hx])

lemma sortedCandidates_isNum {F : FactorSet} (h : CompleteNum F) :
    ∀ c ∈ sortedCandidates F, c.score.isNum = true := by
  intro c hc
  rw [sortedCandidates] at hc
  obtain ⟨p, _, _, rfl⟩ := mem_passingCandidates.1 (mem_sortCands.1 hc)
  exact calculateScore_isNum _ (augment_get_isNum F h) p.2

lemma sortedCandidates_pairwise {F : FactorSet} (h : CompleteNum F) :
    (sortedCandidates F).Pairwise CandR := by
  rw [sortedCandidates]
  apply pairwise_sortCands
  intro x hx
  obtain ⟨p, _, _, rfl⟩ := mem_passingCandidates.1 hx
  exact calculateScore_isNum _ (augment_get_isNum F h) p.2

lemma classify_allCandidates (F : FactorSet) :
    (classify F).allCandidates = (sortedCandidates F).take 5 := rfl

lemma classify_tempRegime (F : FactorSet) :
    (classify F).tempRegime = getTemperatureRegime F.solarAngle F.fuel := rfl

lemma classify_confidence (F : FactorSet) :
    (classify F).confidence =
      (match (sortedCandidates F).head? with
       | some c => if c.score.truthy then c.score else .num 0.5
       | none => .num 0.5).min1 := rfl

lemma classify_primary_eq (F : FactorSet) :
    (classify F).primary =
      (if getTemperatureRegime F.solarAngle F.fuel = .COLD ∨
          getTemperatureRegime F.solarAngle F.fuel = .COOL then
        match (sortedCandidates F).find?
            (fun c => decide (category c.type = .winter)) with
        | some w =>
          if w.score.gtQ 0.3 then w.type
          else (((sortedCandidates F).head?).map Cand.type).getD .FAIR
        | none => (((sortedCandidates F).head?).map Cand.type).getD .FAIR
      else (((sortedCandidates F).head?).map Cand.type).getD .FAIR) := rfl

/-- The twenty weather types. -/
def wtypeList : List WType :=
  [.TORNADO, .SUPERCELL, .SEVERE_TSTORM, .DERECHO, .BOMB_CYCLONE, .BLIZZARD,
   .ICE_STORM, .WINTER_STORM, .HIGH_WIND, .THUNDERSTORM, .FREEZING_RAIN,
   .SNOW, .WINTER_MIX, .SHOWERS, .RAIN, .DRIZZLE, .FOG, .CLOUDY,
   .PARTLY_CLOUDY, .FAIR]

lemma sortedCandidates_type_mem (F : FactorSet) :
    ∀ c ∈ sortedCandidates F, c.type ∈ wtypeList := by
  intro c hc
  rw [sortedCandidates] at hc
  obtain ⟨p, hp, _, rfl⟩ := mem_passingCandidates.1 (mem_sortCands.1 hc)
  have htable : ∀ q ∈ thresholdTable, q.1 ∈ wtypeList := by decide
  exact htable p hp

lemma classify_primary_mem (F : FactorSet) :
    (classify F).primary ∈ wtypeList := by
  have hbase : (((sortedCandidates F).head?).map Cand.type).getD .FAIR ∈
      wtypeList := by
    cases hh : (sortedCandidates F).head? with
    | none => simp [wtypeList]
    | some c =>
      simp only [Option.map_some', Option.getD_some]
      exact sortedCandidates_type_mem F c (List.mem_of_mem_head? hh)
  rw [classify_primary_eq]
  by_cases hreg : (getTemperatureRegime F.solarAngle F.fuel = .COLD ∨
      getTemperatureRegime F.solarAngle F.fuel = .COOL)
  · rw [if_pos hreg]
    cases hf : (sortedCandidates F).find?
        (fun c => decide (category c.type = .winter)) with
    | none => exact hbase
    | some w =>
      by_cases hgt : w.score.gtQ 0.3 = true
      · simp only [hgt, if_true]
        exact sortedCandidates_type_mem F w (List.mem_of_find?_eq_some hf)
      · simp only [hgt, Bool.false_eq_true, if_false]
        exact hbase
  · rw [if_neg hreg]
    exact hbase

/-- Factor set with fuel absent; FAIR has a fuel criterion and the gates of
the other criteria are satisfied. -/
def fsMissingFuel : FactorSet :=
  ⟨.num 0.1, .num 0.05, .undef, .num 0.9, .num 0.1, .num 0⟩

/-- Factor set for which nine weather types pass their threshold gates. -/
def fsManyPass : FactorSet :=
  ⟨.num 0.2, .num 0.1, .num 0.3, .num 0.5, .num 0.33, .num 0.01⟩

/-- Factor set for which the first winter candidate in sorted order
(BOMB_CYCLONE) scores below 0.3 while a later winter candidate
(FREEZING_RAIN) scores above 0.3, in a COOL regime topped by SUPERCELL. -/
def fsWinterSkipped : FactorSet :=
  ⟨.num 0.6, .num 0.45, .num 0.44, .num 0.44, .num 1.3, .num 0.05⟩

/-- Factor set whose highest-ranked winter candidate (FREEZING_RAIN, also the
overall head) scores above 0.3 in a COOL regime. -/
def fsOverride : FactorSet :=
  ⟨.num 0.45, .num 0.05, .num 0.3, .num 0.45, .num 0.8, .undef⟩

/-- Factor set for which no weather type passes its threshold gate. -/
def fsNonePass : FactorSet :=
  ⟨.num 0.2, .num 0.18, .num 0.05, .num 0.7, .num 0.5, .num 0.001⟩

/-- Factor set with danger absent; the recomputed danger
0.45*0.3*0.5^2*0.1^2 = 27/80000 fails SEVERE_TSTORM's danger gate. -/
def fsDangerAbsent : FactorSet :=
  ⟨.num 0.5, .num 0.3, .num 0.45, .num 0.1, .num 2.5, .undef⟩

/-- Factor set with fuel, inversionRatio and danger all absent. -/
def fsSparse : FactorSet :=
  ⟨.num 0.2, .num 0.1, .undef, .num 0.5, .undef, .undef⟩

/-- C1 counterexample: the claim says an absent required factor makes the
pass/fail gate fail the candidate.  Here fuel is absent, FAIR's threshold
contains a fuel criterion (max 0.25), and meetsThreshold nevertheless
returns true: the gate skips the criterion exactly like the score does. -/
theorem c1_counterexample :
    fsMissingFuel.get .fuel = .undef ∧
    Entry.crit .fuel ⟨none, some 0.25, none⟩ ∈ FAIR_thr ∧
    meetsThreshold fsMissingFuel FAIR_thr = true := by decide

/-- C1 (amended): for every factor object, threshold and factor name, a
criterion whose named factor is absent is skipped in BOTH the pass/fail gate
and the match score: each behaves exactly as if that factor's criteria were
removed from the threshold. -/
theorem c1_absent_factor_skipped_in_gate_and_score
    (f : FactorSet) (t : Threshold) (n : FactorName) (h : f.get n = .undef) :
    meetsThreshold f t = meetsThreshold f (removeCrit n t) ∧
    calculateScore f t = calculateScore f (removeCrit n t) :=
  ⟨meetsThreshold_removeCrit f n h t, calculateScore_removeCrit f n h t⟩

/-- Witness for C1 at a concrete factor set with fuel absent and the FAIR
threshold. -/
theorem c1_witness :
    meetsThreshold fsMissingFuel FAIR_thr =
      meetsThreshold fsMissingFuel (removeCrit .fuel FAIR_thr) ∧
    calculateScore fsMissingFuel FAIR_thr =
      calculateScore fsMissingFuel (removeCrit .fuel FAIR_thr) :=
  c1_absent_factor_skipped_in_gate_and_score fsMissingFuel FAIR_thr .fuel rfl

/-- C4 counterexample: for fsManyPass, DRIZZLE passes its threshold gate but
is absent from the returned candidates list, because allCandidates is
truncated to the first five sorted entries (slice(0, 5)). -/
theorem c4_counterexample :
    meetsThreshold (augmentFactors fsManyPass) DRIZZLE_thr = true ∧
    (WType.DRIZZLE, DRIZZLE_thr) ∈ thresholdTable ∧
    (∀ c ∈ (classify fsManyPass).allCandidates, c.type ≠ .DRIZZLE) := by
  decide

/-- C4 (amended): for every complete factor set, the candidates list returned
by classify (a) has at most five entries, (b) contains only types that passed
their threshold gate, with their computed match scores, (c) is ordered by
severity descending then score descending, and (d) omits a passing type only
when the list is already full with five entries. -/
theorem c4_candidates_top_five (F : FactorSet) (h : CompleteNum F) :
    (classify F).allCandidates.length ≤ 5 ∧
    (∀ c ∈ (classify F).allCandidates,
      ∃ thr, (c.type, thr) ∈ thresholdTable ∧
        meetsThreshold (augmentFactors F) thr = true ∧
        c.score = calculateScore (augmentFactors F) thr) ∧
    (classify F).allCandidates.Pairwise (fun a b =>
      severity b.type < severity a.type ∨
      (severity a.type = severity b.type ∧
        ∃ x y, a.score = .num x ∧ b.score = .num y ∧ y ≤ x)) ∧
    (∀ ty thr, (ty, thr) ∈ thresholdTable →
      meetsThreshold (augmentFactors F) thr = true →
      (∀ c ∈ (classify F).allCandidates, c.type ≠ ty) →
      (classify F).allCandidates.length = 5) := by
  rw [classify_allCandidates]
  refine ⟨?_, ?_, ?_, ?_⟩
  · rw [List.length_take]
    exact min_le_left _ _
  · intro c hc
    have hc2 := List.mem_of_mem_take hc
    rw [sortedCandidates] at hc2
    obtain ⟨p, hp, hm, rfl⟩ := mem_passingCandidates.1 (mem_sortCands.1 hc2)
    exact ⟨p.2, hp, hm, rfl⟩
  · have hpw5 : ((sortedCandidates F).take 5).Pairwise CandR :=
      (sortedCandidates_pairwise h).sublist (List.take_sublist 5 _)
    refine hpw5.imp_of_mem ?_
    intro a b ha hb hab
    obtain ⟨x, hx⟩ := JSVal.isNum_iff.1
      (sortedCandidates_isNum h a (List.mem_of_mem_take ha))
    obtain ⟨y, hy⟩ := JSVal.isNum_iff.1
      (sortedCandidates_isNum h b (List.mem_of_mem_take hb))
    unfold CandR candLE at hab
    by_cases hs : severity a.type = severity b.type
    · rw [if_pos hs, hy, hx] at hab
      exact Or.inr ⟨hs, x, y, hx, hy, by simpa using hab⟩
    · rw [if_neg hs] at hab
      exact Or.inl (by simpa using hab)
  · intro ty thr hmem hm hnot
    have hc : (⟨ty, calculateScore (augmentFactors F) thr⟩ : Cand) ∈
        sortedCandidates F := by
      rw [sortedCandidates, mem_sortCands]
      exact mem_passingCandidates.2 ⟨(ty, thr), hmem, hm, rfl⟩
    by_contra hlen
    have hle : (sortedCandidates F).length ≤ 5 := by
      rw [List.length_take] at hlen
      omega
    rw [List.take_of_length_le hle] at hnot
    exact hnot _ hc rfl

/-- Witness for C4 at a concrete complete factor set. -/
theorem c4_witness :
    (classify fsManyPass).allCandidates.length ≤ 5 :=
  (c4_candidates_top_five fsManyPass (by decide)).1

/-- C5 counterexample: in a COOL regime, FREEZING_RAIN passes, has category
winter and score 31/50 > 0.3, yet primary is SUPERCELL (not a winter type):
the override inspects only the FIRST winter candidate in sorted order
(BOMB_CYCLONE, score 4/45, not above 0.3), so the existence of SOME winter
candidate with score above 0.3 does not make it primary. -/
theorem c5_counterexample :
    getTemperatureRegime fsWinterSkipped.solarAngle fsWinterSkipped.fuel
      = .COOL ∧
    (Cand.mk .FREEZING_RAIN (.num (31/50))) ∈
      sortedCandidates fsWinterSkipped ∧
    category .FREEZING_RAIN = .winter ∧ (0.3 : ℚ) < 31/50 ∧
    (classify fsWinterSkipped).primary = .SUPERCELL ∧
    category .SUPERCELL ≠ .winter := by decide

/-- C5 (amended): passing candidates are ordered severity-descending (a more
severe passing type always precedes a less severe one, regardless of score);
if the regime is COLD or COOL and the FIRST candidate of category winter in
that order has score greater than 0.3, it becomes primary; when the regime is
neither COLD nor COOL, primary is the head of the sorted candidate list
(FAIR when empty). -/
theorem c5_two_pass_selection (F : FactorSet) (h : CompleteNum F) :
    ((sortedCandidates F).Pairwise fun a b =>
      severity b.type ≤ severity a.type) ∧
    (∀ w, (getTemperatureRegime F.solarAngle F.fuel = .COLD ∨
           getTemperatureRegime F.solarAngle F.fuel = .COOL) →
      (sortedCandidates F).find?
          (fun c => decide (category c.type = .winter)) = some w →
      w.score.gtQ 0.3 = true →
      (classify F).primary = w.type) ∧
    ((getTemperatureRegime F.solarAngle F.fuel ≠ .COLD ∧
      getTemperatureRegime F.solarAngle F.fuel ≠ .COOL) →
      (classify F).primary =
        (((sortedCandidates F).head?).map Cand.type).getD .FAIR) := by
  refine ⟨?_, ?_, ?_⟩
  · refine (sortedCandidates_pairwise h).imp_of_mem ?_
    intro a b ha hb hab
    unfold CandR candLE at hab
    by_cases hs : severity a.type = severity b.type
    · omega
    · rw [if_neg hs] at hab
      simp only [decide_eq_true_eq] at hab
      omega
  · intro w hreg hfind hgt
    rw [classify_primary_eq, if_pos hreg, hfind]
    simp [hgt]
  · intro hreg
    rw [classify_primary_eq, if_neg (by tauto)]

/-- Witness for C5 at a concrete factor set whose first winter candidate in
sorted order is FREEZING_RAIN with score 33/40 > 0.3, in a COOL regime. -/
theorem c5_witness : (classify fsOverride).primary = .FREEZING_RAIN :=
  (c5_two_pass_selection fsOverride (by decide)).2.1
    ⟨.FREEZING_RAIN, .num (33/40)⟩ (Or.inr (by decide)) (by decide) (by decide)

/-- C6 (confirmed): when no weather type passes its threshold gate, classify
returns FAIR as primary with confidence 0.5. -/
theorem c6_default_fair (F : FactorSet)
    (h : ∀ p ∈ thresholdTable,
      meetsThreshold (augmentFactors F) p.2 = false) :
    (classify F).primary = .FAIR ∧ (classify F).confidence = .num (1/2) := by
  have hempty : passingCandidates (augmentFactors F) = [] := by
    unfold passingCandidates
    rw [List.filterMap_eq_nil_iff]
    intro p hp
    rw [if_neg (by simp [h p hp])]
  have hsorted : sortedCandidates F = [] := by
    rw [sortedCandidates, hempty]
    rfl
  constructor
  · rw [classify_primary_eq, hsorted]
    split <;> simp
  · rw [classify_confidence, hsorted]
    norm_num [JSVal.min1]

/-- Witness for C6 at a concrete factor set failing all twenty gates. -/
theorem c6_witness :
    (classify fsNonePass).primary = .FAIR ∧
    (classify fsNonePass).confidence = .num (1/2) :=
  c6_default_fair fsNonePass (by decide)

/-- C9 counterexample: danger is absent from the factor set, yet its criteria
are NOT skipped: classify recomputes danger as fuel*gradient*catalyst^2*
solarAngle^2 = 27/80000, which fails SEVERE_TSTORM's danger gate (min 0.005),
while removing the danger criterion would let SEVERE_TSTORM pass. -/
theorem c9_counterexample :
    fsDangerAbsent.danger = .undef ∧
    meetsThreshold (augmentFactors fsDangerAbsent) SEVERE_TSTORM_thr
      = false ∧
    meetsThreshold (augmentFactors fsDangerAbsent)
      (removeCrit .danger SEVERE_TSTORM_thr) = true := by decide

/-- C9 (amended): classify is total — for EVERY factor set, with any subset
of fields absent, it returns a result whose primary is one of the twenty
weather types; a missing catalyst/gradient/fuel/solarAngle factor is treated
as no opinion (its criteria are skipped in both the gate and the score); a
missing inversionRatio makes every inversionMin/inversionMax check pass
vacuously (the gate equals the gate with those entries removed); a missing
danger is NOT skipped but recomputed as fuel*gradient*catalyst^2*
solarAngle^2, and its criteria are evaluated on that value. -/
theorem c9_classify_total_and_skips (F : FactorSet) :
    (classify F).primary ∈ wtypeList ∧
    (∀ n t, n ≠ .danger → F.get n = .undef →
      meetsThreshold (augmentFactors F) t =
        meetsThreshold (augmentFactors F) (removeCrit n t) ∧
      calculateScore (augmentFactors F) t =
        calculateScore (augmentFactors F) (removeCrit n t)) ∧
    (F.inversionRatio = .undef → ∀ t,
      meetsThreshold (augmentFactors F) t =
        meetsThreshold (augmentFactors F) (removeInv t)) ∧
    (F.danger = .undef →
      (augmentFactors F).danger =
        (((F.fuel.mul F.gradient).mul (F.catalyst.mul F.catalyst)).mul
          (F.solarAngle.mul F.solarAngle))) := by
  refine ⟨classify_primary_mem F, ?_, ?_, ?_⟩
  · intro n t hn h
    have haug : (augmentFactors F).get n = .undef := by
      cases n <;> simp_all [augmentFactors, FactorSet.get]
    exact ⟨meetsThreshold_removeCrit _ n haug t,
      calculateScore_removeCrit _ n haug t⟩
  · intro h t
    exact meetsThreshold_removeInv (augmentFactors F) h t
  · intro h
    simp [augmentFactors, h, JSVal.truthy]

/-- Witness for C9 at a concrete factor set with fuel, inversionRatio and
danger all absent, discharging every hypothesis of the theorem. -/
theorem c9_witness :
    (classify fsSparse).primary ∈ wtypeList ∧
    meetsThreshold (augmentFactors fsSparse) DRIZZLE_thr =
      meetsThreshold (augmentFactors fsSparse)
        (removeCrit .fuel DRIZZLE_thr) ∧
    calculateScore (augmentFactors fsSparse) DRIZZLE_thr =
      calculateScore (augmentFactors fsSparse)
        (removeCrit .fuel DRIZZLE_thr) ∧
    meetsThreshold (augmentFactors fsSparse) BOMB_CYCLONE_thr =
      meetsThreshold (augmentFactors fsSparse)
        (removeInv BOMB_CYCLONE_thr) ∧
    (augmentFactors fsSparse).danger =
      (((fsSparse.fuel.mul fsSparse.gradient).mul
          (fsSparse.catalyst.mul fsSparse.catalyst)).mul
        (fsSparse.solarAngle.mul fsSparse.solarAngle)) :=
  ⟨(c9_classify_total_and_skips fsSparse).1,
   ((c9_classify_total_and_skips fsSparse).2.1 .fuel DRIZZLE_thr
     (by decide) rfl).1,
   ((c9_classify_total_and_skips fsSparse).2.1 .fuel DRIZZLE_thr
     (by decide) rfl).2,
   (c9_classify_total_and_skips fsSparse).2.2.1 rfl BOMB_CYCLONE_thr,
   (c9_classify_total_and_skips fsSparse).2.2.2 rfl⟩

end Classifier

namespace Engine

noncomputable section

/-- Earth axial tilt in degrees. -/
def EARTH_TILT : ℝ := 23.44

def DAYS_PER_YEAR : ℝ := 365.25

def SPRING_EQUINOX_DOY : ℝ := 80

def GULF_SST_BASELINE : ℝ := 26.0

def GULF_SST_CURRENT : ℝ := 27.0

def WARMING_COEFFICIENT : ℝ := 1.0

def ARCTIC_DAMPING : ℝ := 0.3

/-- One row of the REGIONAL_FUEL table. -/
structure RegionData where
  lat : ℝ
  fuel : ℝ
  gradient : ℝ

/-- The REGIONAL_FUEL table of DSOWeatherEngine, keyed by region string. -/
def REGIONAL_FUEL : String → Option RegionData
  | "gulf_coast" => some ⟨30, 1.00, 0.60⟩
  | "dixie_alley" => some ⟨34, 0.90, 1.00⟩
  | "tornado_alley" => some ⟨36, 0.80, 1.00⟩
  | "southern_plains" => some ⟨33, 0.85, 0.90⟩
  | "midwest" => some ⟨40, 0.65, 0.80⟩
  | "northern_plains" => some ⟨45, 0.45, 0.50⟩
  | "northeast" => some ⟨42, 0.40, 0.40⟩
  | "southeast" => some ⟨33, 0.85, 0.75⟩
  | "pacific_nw" => some ⟨47, 0.30, 0.30⟩
  | "southwest" => some ⟨34, 0.25, 0.20⟩
  | _ => none

/-- DSOWeatherEngine.getCatalyst: the absolute cosine of the phase measured
from the spring equinox. -/
def getCatalyst (dayOfYear : ℝ) : ℝ :=
  let shifted := dayOfYear - SPRING_EQUINOX_DOY
  |Real.cos ((2 * Real.pi * shifted) / DAYS_PER_YEAR)|

/-- DSOWeatherEngine.getSolarAngle: solar elevation at noon from latitude and
seasonal declination, clamped below at 0; Math.asin is Real.arcsin. -/
def getSolarAngle (lat dayOfYear : ℝ) : ℝ :=
  let latRad := lat * Real.pi / 180
  let declination :=
    EARTH_TILT * Real.sin ((2 * Real.pi * (dayOfYear - 81)) / DAYS_PER_YEAR)
  let decRad := declination * Real.pi / 180
  let solarElevation := Real.arcsin
    (Real.sin latRad * Real.sin decRad + Real.cos latRad * Real.cos decRad)
  max 0 (Real.sin solarElevation)

/-- DSOWeatherEngine.getEFuel.  The `?.fuel || 0.5` fallback is modelled with
getD 0.5; no region of the table has fuel 0, so the JS falsy fallback and the
missing-key fallback coincide. -/
def getEFuel (region : String) (climateOffset : ℝ) : ℝ :=
  let base := ((REGIONAL_FUEL region).map RegionData.fuel).getD 0.5
  let warming := GULF_SST_CURRENT - GULF_SST_BASELINE + climateOffset
  let adjusted := base * (1 + WARMING_COEFFICIENT * warming * 0.1)
  min 1.0 adjusted

/-- DSOWeatherEngine.getGradient, with the Arctic-amplification damping. -/
def getGradient (region : String) (climateOffset : ℝ) : ℝ :=
  let base := ((REGIONAL_FUEL region).map RegionData.gradient).getD 0.5
  let arcticWarming := climateOffset * ARCTIC_DAMPING
  let adjusted := base * (1 - arcticWarming * 0.1)
  max 0 adjusted

def getSolarPunch (lat dayOfYear : ℝ) : ℝ :=
  getSolarAngle lat dayOfYear * getCatalyst dayOfYear

def getProbability (fuel catalyst solarAngle : ℝ) : ℝ :=
  fuel * catalyst * solarAngle

def getVolatility (gradient catalyst solarAngle : ℝ) : ℝ :=
  gradient * catalyst * solarAngle

def getDangerIndex (fuel gradient catalyst solarAngle : ℝ) : ℝ :=
  fuel * gradient * catalyst ^ 2 * solarAngle ^ 2

/-- A storm-type candidate of classifyStorm (the mechanism string and the
EF-scale severity label are presentational and omitted). -/
structure StormCand where
  type : String
  probability : ℝ

open Classical in
/-- Stable insertion for the probability-descending sort of classifyStorm
(JS comparator (a, b) => b.probability - a.probability). -/
def insertStorm (a : StormCand) : List StormCand → List StormCand
  | [] => [a]
  | b :: l =>
    if b.probability ≤ a.probability then a :: b :: l
    else b :: insertStorm a l

open Classical in
def sortStorms : List StormCand → List StormCand
  | [] => []
  | a :: l => insertStorm a (sortStorms l)

structure StormClassification where
  primary : StormCand
  secondary : Option StormCand
  all : List StormCand
  probability : ℝ
  volatility : ℝ
  danger : ℝ

open Classical in
/-- DSOWeatherEngine.classifyStorm: seven condition-guarded candidate pushes,
sorted by probability descending, with the STABLE default. -/
def classifyStorm (fuel gradient catalyst solarAngle _lat : ℝ) :
    StormClassification :=
  let probability := getProbability fuel catalyst solarAngle
  let volatility := getVolatility gradient catalyst solarAngle
  let danger := getDangerIndex fuel gradient catalyst solarAngle
  let results : List StormCand :=
    (if 0.70 < gradient ∧ 0.60 < catalyst ∧ 0.40 < volatility then
      [⟨"TORNADO", volatility⟩] else []) ++
    (if 0.50 < gradient ∧ 0.40 < catalyst ∧ 0.50 < fuel then
      [⟨"SUPERCELL", probability * gradient⟩] else []) ++
    (if 0.75 < fuel ∧ catalyst < 0.35 ∧ gradient < 0.50 then
      [⟨"DERECHO", fuel ^ 2 * (1 - catalyst)⟩] else []) ++
    (if 0.30 < gradient ∧ 0.40 < fuel ∧ 0.30 < solarAngle then
      [⟨"SEVERE_THUNDERSTORM", fuel * gradient * solarAngle⟩] else []) ++
    (if 0.50 < gradient ∧ 0.40 < catalyst ∧ solarAngle < 0.35 then
      [⟨"BLIZZARD", gradient * catalyst * (1 - solarAngle)⟩] else []) ++
    (if 0.30 < fuel ∧ 0.40 < solarAngle then
      [⟨"THUNDERSTORM", fuel * solarAngle * 0.5⟩] else []) ++
    (if 0.70 < fuel then [⟨"FLASH_FLOOD_RISK", fuel * 0.4⟩] else [])
  let sorted := sortStorms results
  { primary := (sorted.head?).getD ⟨"STABLE", 0⟩
    secondary := sorted.get? 1
    all := sorted
    probability := probability
    volatility := volatility
    danger := danger }

/-- The numeric payload of a successful infer call (the date string, the
interpretation labels and the dsoSignature block are presentational and
omitted). -/
structure Inference where
  region : String
  latitude : ℝ
  dayOfYear : ℝ
  climateOffset : ℝ
  fuel : ℝ
  gradient : ℝ
  catalyst : ℝ
  solarAngle : ℝ
  solarPunch : ℝ
  probability : ℝ
  volatility : ℝ
  danger : ℝ
  prediction : StormCand
  alternatives : List StormCand

/-- The infer return value: notFound models the
`{ error: "Unknown region: ..." }` object. -/
inductive InferResult where
  | notFound (region : String)
  | ok (result : Inference)

open Classical in
/-- DSOWeatherEngine.infer. -/
def infer (region : String) (dayOfYear climateOffset : ℝ) : InferResult :=
  match REGIONAL_FUEL region with
  | none => .notFound region
  | some regionData =>
    let lat := regionData.lat
    let fuel := getEFuel region climateOffset
    let gradient := getGradient region climateOffset
    let catalyst := getCatalyst dayOfYear
    let solarAngle := getSolarAngle lat dayOfYear
    let solarPunch := getSolarPunch lat dayOfYear
    let classification := classifyStorm fuel gradient catalyst solarAngle lat
    .ok
      { region := region
        latitude := lat
        dayOfYear := dayOfYear
        climateOffset := climateOffset
        fuel := fuel
        gradient := gradient
        catalyst := catalyst
        solarAngle := solarAngle
        solarPunch := solarPunch
        probability := classification.probability
        volatility := classification.volatility
        danger := classification.danger
        prediction := classification.primary
        alternatives := classification.all.drop 1 }

end

end Engine

namespace Calc

noncomputable section

/-- DSOFactorCalculator.getCatalyst (src/unnamed/part_001): the
derivative-then-normalize variant, |23.5 * (2pi/365.25) * cos phase| / 0.405. -/
def getCatalyst (dayOfYear : ℝ) : ℝ :=
  let phase := (2 * Real.pi * (dayOfYear - 80)) / 365.25
  let rawValue := 23.5 * (2 * Real.pi / 365.25) * Real.cos phase
  |rawValue| / 0.405

/-- DSOFactorCalculator.getSolarDeclination. -/
def getSolarDeclination (dayOfYear : ℝ) : ℝ :=
  23.45 * Real.sin ((2 * Real.pi / 365.25) * (dayOfYear - 81))

/-- DSOFactorCalculator.getSolarAngle: the variant that clamps sinAlpha into
[0, 1] directly without Math.asin; note the (dayOfYear, latitude) argument
order of the source. -/
def getSolarAngle (dayOfYear latitude : ℝ) : ℝ :=
  let declination := getSolarDeclination dayOfYear
  let decRad := declination * Real.pi / 180
  let latRad := latitude * Real.pi / 180
  let sinAlpha :=
    Real.sin latRad * Real.sin decRad + Real.cos latRad * Real.cos decRad
  max 0 (min 1 sinAlpha)

end

end Calc

lemma REGIONAL_FUEL_bounds (r : String) (rd : Engine.RegionData)
    (h : Engine.REGIONAL_FUEL r = some rd) :
    0 ≤ rd.fuel ∧ rd.fuel ≤ 1 ∧ 0 ≤ rd.gradient ∧ rd.gradient ≤ 1 := by
  unfold Engine.REGIONAL_FUEL at h
  split at h <;>
    first
    | (injection h with h2; subst h2; norm_num)
    | exact Option.noConfusion h

lemma getCatalyst_bounds (d : ℝ) :
    0 ≤ Engine.getCatalyst d ∧ Engine.getCatalyst d ≤ 1 := by
  simp only [Engine.getCatalyst]
  exact ⟨abs_nonneg _, Real.abs_cos_le_one _⟩

lemma getSolarAngle_bounds (lat d : ℝ) :
    0 ≤ Engine.getSolarAngle lat d ∧ Engine.getSolarAngle lat d ≤ 1 := by
  simp only [Engine.getSolarAngle]
  exact ⟨le_max_left _ _, max_le (by norm_num) (Real.sin_le_one _)⟩

lemma getEFuel_bounds (region : String) (rd : Engine.RegionData)
    (hr : Engine.REGIONAL_FUEL region = some rd) (o : ℝ) (ho : 0 ≤ o) :
    0 ≤ Engine.getEFuel region o ∧ Engine.getEFuel region o ≤ 1 := by
  obtain ⟨hf0, hf1, _, _⟩ := REGIONAL_FUEL_bounds region rd hr
  simp only [Engine.getEFuel, Engine.WARMING_COEFFICIENT,
    Engine.GULF_SST_CURRENT, Engine.GULF_SST_BASELINE, hr,
    Option.map_some', Option.getD_some]
  constructor
  · apply le_min (by norm_num)
    nlinarith [hf0, ho]
  · exact le_trans (min_le_left _ _) (by norm_num)

lemma getGradient_bounds (region : String) (rd : Engine.RegionData)
    (hr : Engine.REGIONAL_FUEL region = some rd) (o : ℝ) (ho : 0 ≤ o) :
    0 ≤ Engine.getGradient region o ∧ Engine.getGradient region o ≤ 1 := by
  obtain ⟨_, _, hg0, hg1⟩ := REGIONAL_FUEL_bounds region rd hr
  simp only [Engine.getGradient, Engine.ARCTIC_DAMPING, hr,
    Option.map_some', Option.getD_some]
  refine ⟨le_max_left _ _, max_le (by norm_num) ?_⟩
  nlinarith [hg0, hg1, ho]

/-- C3 counterexample: with the gulf_coast region (base fuel 1.0), the
adjusted fuel exceeds the Math.min(1, ...) clamp at both offset 0 and
offset 1, so both give fuel exactly 1 and increasing the climate offset does
not strictly increase fuel. -/
theorem c3_counterexample :
    Engine.getEFuel "gulf_coast" 0 = 1 ∧ Engine.getEFuel "gulf_coast" 1 = 1 := by
  have hr : Engine.REGIONAL_FUEL "gulf_coast" = some ⟨30, 1.00, 0.60⟩ := rfl
  constructor <;>
    simp only [Engine.getEFuel, Engine.WARMING_COEFFICIENT,
      Engine.GULF_SST_CURRENT, Engine.GULF_SST_BASELINE, hr,
      Option.map_some', Option.getD_some] <;>
    norm_num [min_def]

/-- C3 (amended): for every region of the table, fuel is monotone
NONDECREASING and gradient monotone NONINCREASING in the climate offset for
0 ≤ o1 < o2 (the source's getEFuel and getGradient take no day-of-year
argument); strict monotonicity fails at the Math.min / Math.max clamps, as
the counterexample shows. -/
theorem c3_offset_monotone (region : String) (rd : Engine.RegionData)
    (hr : Engine.REGIONAL_FUEL region = some rd)
    (o1 o2 : ℝ) (h0 : 0 ≤ o1) (h12 : o1 < o2) :
    Engine.getEFuel region o1 ≤ Engine.getEFuel region o2 ∧
    Engine.getGradient region o2 ≤ Engine.getGradient region o1 := by
  obtain ⟨hf0, hf1, hg0, hg1⟩ := REGIONAL_FUEL_bounds region rd hr
  constructor
  · simp only [Engine.getEFuel, Engine.WARMING_COEFFICIENT,
      Engine.GULF_SST_CURRENT, Engine.GULF_SST_BASELINE, hr,
      Option.map_some', Option.getD_some]
    apply min_le_min le_rfl
    nlinarith [hf0, h12]
  · simp only [Engine.getGradient, Engine.ARCTIC_DAMPING, hr,
      Option.map_some', Option.getD_some]
    apply max_le_max le_rfl
    nlinarith [hg0, h12]

/-- Witness for C3 at the tornado_alley region with offsets 0 and 1. -/
theorem c3_witness :
    Engine.getEFuel "tornado_alley" 0 ≤ Engine.getEFuel "tornado_alley" 1 ∧
    Engine.getGradient "tornado_alley" 1 ≤
      Engine.getGradient "tornado_alley" 0 :=
  c3_offset_monotone "tornado_alley" ⟨36, 0.80, 1.00⟩ rfl 0 1 le_rfl one_pos

/-- C7 (confirmed): infer returns the typed notFound result exactly for
region keys outside the REGIONAL_FUEL table and a plain ok prediction for
keys in it; as a total function over its numeric domain it has no other
error outcome. -/
theorem c7_infer_total_with_typed_not_found (region : String)
    (dayOfYear climateOffset : ℝ) :
    (Engine.REGIONAL_FUEL region = none →
      Engine.infer region dayOfYear climateOffset = .notFound region) ∧
    (∀ rd, Engine.REGIONAL_FUEL region = some rd →
      ∃ res, Engine.infer region dayOfYear climateOffset = .ok res) := by
  constructor
  · intro h
    unfold Engine.infer
    rw [h]
  · intro rd h
    unfold Engine.infer
    rw [h]
    exact ⟨_, rfl⟩

/-- Witness for C7: an unknown key gives the typed error, a known key an ok
prediction. -/
theorem c7_witness :
    Engine.infer "atlantis" 100 0 = .notFound "atlantis" ∧
    ∃ res, Engine.infer "gulf_coast" 105 0 = .ok res :=
  ⟨(c7_infer_total_with_typed_not_found "atlantis" 100 0).1 rfl,
   (c7_infer_total_with_typed_not_found "gulf_coast" 105 0).2
     ⟨30, 1.00, 0.60⟩ rfl⟩

/-- C8 (confirmed): for every region of the table, every day-of-year in
1..365 and every climate offset at least 0, the four factors lie in [0,1]
and so do the derived probability, volatility and danger indices, although
no clamp is applied to the products themselves. -/
theorem c8_factors_and_indices_in_unit_interval (region : String)
    (rd : Engine.RegionData) (hr : Engine.REGIONAL_FUEL region = some rd)
    (d o : ℝ) (hd1 : 1 ≤ d) (hd2 : d ≤ 365) (ho : 0 ≤ o) :
    (0 ≤ Engine.getEFuel region o ∧ Engine.getEFuel region o ≤ 1) ∧
    (0 ≤ Engine.getGradient region o ∧ Engine.getGradient region o ≤ 1) ∧
    (0 ≤ Engine.getCatalyst d ∧ Engine.getCatalyst d ≤ 1) ∧
    (0 ≤ Engine.getSolarAngle rd.lat d ∧ Engine.getSolarAngle rd.lat d ≤ 1) ∧
    (0 ≤ Engine.getProbability (Engine.getEFuel region o) (Engine.getCatalyst d)
        (Engine.getSolarAngle rd.lat d) ∧
      Engine.getProbability (Engine.getEFuel region o) (Engine.getCatalyst d)
        (Engine.getSolarAngle rd.lat d) ≤ 1) ∧
    (0 ≤ Engine.getVolatility (Engine.getGradient region o) (Engine.getCatalyst d)
        (Engine.getSolarAngle rd.lat d) ∧
      Engine.getVolatility (Engine.getGradient region o) (Engine.getCatalyst d)
        (Engine.getSolarAngle rd.lat d) ≤ 1) ∧
    (0 ≤ Engine.getDangerIndex (Engine.getEFuel region o)
        (Engine.getGradient region o) (Engine.getCatalyst d)
        (Engine.getSolarAngle rd.lat d) ∧
      Engine.getDangerIndex (Engine.getEFuel region o)
        (Engine.getGradient region o) (Engine.getCatalyst d)
        (Engine.getSolarAngle rd.lat d) ≤ 1) := by
  obtain ⟨hf0, hf1⟩ := getEFuel_bounds region rd hr o ho
  obtain ⟨hg0, hg1⟩ := getGradient_bounds region rd hr o ho
  obtain ⟨hc0, hc1⟩ := getCatalyst_bounds d
  obtain ⟨hs0, hs1⟩ := getSolarAngle_bounds rd.lat d
  refine ⟨⟨hf0, hf1⟩, ⟨hg0, hg1⟩, ⟨hc0, hc1⟩, ⟨hs0, hs1⟩, ⟨?_, ?_⟩,
    ⟨?_, ?_⟩, ⟨?_, ?_⟩⟩
  · exact mul_nonneg (mul_nonneg hf0 hc0) hs0
  · exact mul_le_one₀ (mul_le_one₀ hf1 hc0 hc1) hs0 hs1
  · exact mul_nonneg (mul_nonneg hg0 hc0) hs0
  · exact mul_le_one₀ (mul_le_one₀ hg1 hc0 hc1) hs0 hs1
  · exact mul_nonneg (mul_nonneg (mul_nonneg hf0 hg0) (sq_nonneg _))
      (sq_nonneg _)
  · exact mul_le_one
      (mul_le_one₀ (mul_le_one₀ hf1 hg0 hg1) (sq_nonneg _)
        (pow_le_one₀ hc0 hc1))
      (sq_nonneg _) (pow_le_one₀ hs0 hs1)

/-- Witness for C8 at the gulf_coast region, day 105, offset 0. -/
theorem c8_witness :
    0 ≤ Engine.getEFuel "gulf_coast" 0 ∧ Engine.getEFuel "gulf_coast" 0 ≤ 1 :=
  (c8_factors_and_indices_in_unit_interval "gulf_coast" ⟨30, 1.00, 0.60⟩ rfl
    105 0 (by norm_num) (by norm_num) le_rfl).1

lemma catalyst_angle_172 :
    2 * Real.pi * ((172:ℝ) - 80) / 365.25 =
      11 * Real.pi / 2922 + Real.pi / 2 := by
  ring

lemma t172_pos : (0:ℝ) < 11 * Real.pi / 2922 := by positivity

lemma t172_gt : (0.0118:ℝ) < 11 * Real.pi / 2922 := by
  nlinarith [Real.pi_gt_d6]

lemma t172_lt : 11 * Real.pi / 2922 < (0.0119:ℝ) := by
  nlinarith [Real.pi_lt_d6]

lemma sin_t172_gt : (0.0117:ℝ) < Real.sin (11 * Real.pi / 2922) := by
  have hcube := Real.sin_gt_sub_cube t172_pos
    (le_trans (le_of_lt t172_lt) (by norm_num))
  have h3 : (11 * Real.pi / 2922) ^ 3 < (0.0119:ℝ) ^ 3 :=
    pow_lt_pow_left t172_lt (le_of_lt t172_pos) (by norm_num)
  nlinarith [t172_gt]

lemma sin_t172_lt : Real.sin (11 * Real.pi / 2922) < (0.0119:ℝ) :=
  lt_trans (Real.sin_lt t172_pos) t172_lt

lemma getCatalyst_at_172 :
    Engine.getCatalyst 172 = Real.sin (11 * Real.pi / 2922) := by
  simp only [Engine.getCatalyst, Engine.DAYS_PER_YEAR,
    Engine.SPRING_EQUINOX_DOY]
  rw [catalyst_angle_172, Real.cos_add_pi_div_two, abs_neg, abs_of_nonneg]
  exact Real.sin_nonneg_of_nonneg_of_le_pi (le_of_lt t172_pos)
    (by nlinarith [t172_lt, Real.pi_gt_d6])

lemma catalyst_angle_266 :
    2 * Real.pi * ((266:ℝ) - 80) / 365.25 = 9 * Real.pi / 487 + Real.pi := by
  ring

lemma y266_pos : (0:ℝ) < 9 * Real.pi / 487 := by positivity

lemma y266_lt : 9 * Real.pi / 487 < (0.0581:ℝ) := by
  nlinarith [Real.pi_lt_d6]

lemma getCatalyst_at_266 :
    Engine.getCatalyst 266 = Real.cos (9 * Real.pi / 487) := by
  simp only [Engine.getCatalyst, Engine.DAYS_PER_YEAR,
    Engine.SPRING_EQUINOX_DOY]
  rw [catalyst_angle_266, Real.cos_add_pi, abs_neg, abs_of_nonneg]
  apply le_of_lt
  apply Real.cos_pos_of_mem_Ioo
  rw [Set.mem_Ioo]
  constructor
  · nlinarith [y266_pos, Real.pi_gt_d6]
  · nlinarith [y266_lt, Real.pi_gt_d6]

lemma cos_y266_ge : (0.99:ℝ) ≤ Real.cos (9 * Real.pi / 487) := by
  have h := Real.one_sub_sq_div_two_le_cos (x := 9 * Real.pi / 487)
  nlinarith [y266_pos, y266_lt]

lemma catalyst_angle_355 :
    2 * Real.pi * ((355:ℝ) - 80) / 365.25 =
      17 * Real.pi / 2922 + Real.pi / 2 + Real.pi := by
  ring

lemma t355_pos : (0:ℝ) < 17 * Real.pi / 2922 := by positivity

lemma t355_lt : 17 * Real.pi / 2922 < (0.0183:ℝ) := by
  nlinarith [Real.pi_lt_d6]

lemma getCatalyst_at_355 :
    Engine.getCatalyst 355 = Real.sin (17 * Real.pi / 2922) := by
  simp only [Engine.getCatalyst, Engine.DAYS_PER_YEAR,
    Engine.SPRING_EQUINOX_DOY]
  rw [catalyst_angle_355, Real.cos_add_pi, Real.cos_add_pi_div_two, neg_neg,
    abs_of_nonneg]
  exact Real.sin_nonneg_of_nonneg_of_le_pi (le_of_lt t355_pos)
    (by nlinarith [t355_lt, Real.pi_gt_d6])

/-- C2 counterexample: the claim puts catalyst(172) within 1e-2 of 0, but
catalyst(172) = sin(11*pi/2922), approximately 0.0118, exceeds 1/100 — and so
does the derivative-then-normalize variant of DSOFactorCalculator at day
172. -/
theorem c2_counterexample :
    1/100 < Engine.getCatalyst 172 ∧ 1/100 < Calc.getCatalyst 172 := by
  constructor
  · rw [getCatalyst_at_172]
    linarith [sin_t172_gt]
  · simp only [Calc.getCatalyst]
    have hphase : Real.cos (2 * Real.pi * ((172:ℝ) - 80) / 365.25) =
        -Real.sin (11 * Real.pi / 2922) := by
      rw [catalyst_angle_172, Real.cos_add_pi_div_two]
    rw [hphase, abs_mul, abs_neg,
      abs_of_nonneg (Real.sin_nonneg_of_nonneg_of_le_pi (le_of_lt t172_pos)
        (by nlinarith [t172_lt, Real.pi_gt_d6])),
      abs_of_nonneg (by positivity : (0:ℝ) ≤ 23.5 * (2 * Real.pi / 365.25))]
    have hA : (0.404:ℝ) < 23.5 * (2 * Real.pi / 365.25) := by
      have h := Real.pi_gt_d6
      norm_num at h ⊢
      linarith
    have h2 : (0.404:ℝ) * 0.0117 ≤
        23.5 * (2 * Real.pi / 365.25) * Real.sin (11 * Real.pi / 2922) :=
      mul_le_mul (le_of_lt hA) (le_of_lt sin_t172_gt) (by norm_num)
        (by positivity)
    rw [lt_div_iff (by norm_num : (0:ℝ) < 0.405)]
    nlinarith [h2]

/-- C2 (amended): for every day-of-year the catalyst lies in [0,1];
catalyst(80) and catalyst(266) are within 1e-2 of 1 (equinox peaks); the
solstice troughs catalyst(172) and catalyst(355) are within 2e-2 of 0 (the
claimed 1e-2 tolerance fails there, see the counterexample). -/
theorem c2_catalyst_range_peaks_troughs :
    (∀ d : ℝ, 0 ≤ Engine.getCatalyst d ∧ Engine.getCatalyst d ≤ 1) ∧
    |Engine.getCatalyst 80 - 1| ≤ 1/100 ∧
    |Engine.getCatalyst 266 - 1| ≤ 1/100 ∧
    Engine.getCatalyst 172 ≤ 2/100 ∧
    Engine.getCatalyst 355 ≤ 2/100 := by
  refine ⟨getCatalyst_bounds, ?_, ?_, ?_, ?_⟩
  · have h : Engine.getCatalyst 80 = 1 := by
      simp only [Engine.getCatalyst, Engine.DAYS_PER_YEAR,
        Engine.SPRING_EQUINOX_DOY]
      norm_num [Real.cos_zero]
    rw [h]
    norm_num
  · rw [getCatalyst_at_266, abs_le]
    constructor
    · linarith [cos_y266_ge]
    · linarith [Real.cos_le_one (9 * Real.pi / 487)]
  · rw [getCatalyst_at_172]
    linarith [sin_t172_lt]
  · rw [getCatalyst_at_355]
    have h := Real.sin_lt t355_pos
    linarith [t355_lt]

/-- C10 (confirmed): both getSolarAngle variants are total and bounded in
[0,1] for EVERY real latitude and day-of-year; in the engine variant the
arcsin argument sin(lat)sin(dec) + cos(lat)cos(dec) = cos(lat - dec) always
lies in [-1,1], so sin(asin(x)) collapses to x and only the max-with-0 clamp
acts. -/
theorem c10_solar_angle_total_and_bounded (lat d : ℝ) :
    (0 ≤ Engine.getSolarAngle lat d ∧ Engine.getSolarAngle lat d ≤ 1) ∧
    Engine.getSolarAngle lat d =
      max 0 (Real.sin (lat * Real.pi / 180) *
          Real.sin (Engine.EARTH_TILT *
            Real.sin ((2 * Real.pi * (d - 81)) / Engine.DAYS_PER_YEAR) *
            Real.pi / 180) +
        Real.cos (lat * Real.pi / 180) *
          Real.cos (Engine.EARTH_TILT *
            Real.sin ((2 * Real.pi * (d - 81)) / Engine.DAYS_PER_YEAR) *
            Real.pi / 180)) ∧
    (0 ≤ Calc.getSolarAngle d lat ∧ Calc.getSolarAngle d lat ≤ 1) := by
  refine ⟨getSolarAngle_bounds lat d, ?_, ?_⟩
  · simp only [Engine.getSolarAngle]
    congr 1
    have hid : Real.sin (lat * Real.pi / 180) *
          Real.sin (Engine.EARTH_TILT *
            Real.sin ((2 * Real.pi * (d - 81)) / Engine.DAYS_PER_YEAR) *
            Real.pi / 180) +
        Real.cos (lat * Real.pi / 180) *
          Real.cos (Engine.EARTH_TILT *
            Real.sin ((2 * Real.pi * (d - 81)) / Engine.DAYS_PER_YEAR) *
            Real.pi / 180) =
        Real.cos (lat * Real.pi / 180 -
          Engine.EARTH_TILT *
            Real.sin ((2 * Real.pi * (d - 81)) / Engine.DAYS_PER_YEAR) *
            Real.pi / 180) := by
      rw [Real.cos_sub]
      ring
    apply Real.sin_arcsin
    · rw [hid]
      exact Real.neg_one_le_cos _
    · rw [hid]
      exact Real.cos_le_one _
  · simp only [Calc.getSolarAngle]
    exact ⟨le_max_left _ _,
      max_le (by norm_num) (le_trans (min_le_left _ _) (by norm_num))⟩

end DSOWeather
